import Mathlib

/-!
Shallow embedding of the `tower-stratum` Sv2 server service
(`src/server/service/mod.rs` and companions), together with theorems
checking the natural-language specification against it.

Machine integers (`u16`, `u32`) are embedded as `Nat`; the only place
where wrap-around semantics matter is the bitwise complement in the
feature-flag check, which is embedded as xor against the 32-bit
all-ones mask.  Fallible operations return an explicit result type.
Asynchronous effects (handler invocations, channel sends) are embedded
as explicit state passing, with a ghost log recording handler
`add_client` invocations.
-/

namespace TowerStratum

/-- Sv2 subprotocol identifiers, mirroring
`stratum_common::roles_logic_sv2::common_messages_sv2::Protocol`. -/
inductive Protocol where
  | miningProtocol
  | jobDeclarationProtocol
  | templateDistributionProtocol
deriving DecidableEq, Repr

/-- Mirrors `SetupConnection<'static>`: protocol, version range, feature
flags and peer metadata. -/
structure SetupConnection where
  protocol : Protocol
  min_version : Nat
  max_version : Nat
  flags : Nat
  endpoint_host : String
  endpoint_port : Nat
  vendor : String
  hardware_version : String
  firmware : String
  device_id : String
deriving DecidableEq, Repr

/-- Mirrors `SetupConnectionSuccess { used_version: u16, flags: u32 }`. -/
structure SetupConnectionSuccess where
  used_version : Nat
  flags : Nat
deriving DecidableEq, Repr

/-- Mirrors `SetupConnectionError { flags: u32, error_code: STR0_255 }`;
the error code is embedded as a `String`. -/
structure SetupConnectionError where
  flags : Nat
  error_code : String
deriving DecidableEq, Repr

/-- Mirrors the `CommonMessages` parser variants used by the server
service.  Variants other than the three setup messages are collapsed
into `channelEndpointChanged` with an opaque payload token; the
dispatcher treats them uniformly (`UnsupportedMessage`). -/
inductive CommonMessage where
  | setupConnection (sc : SetupConnection)
  | setupConnectionSuccess (s : SetupConnectionSuccess)
  | setupConnectionError (e : SetupConnectionError)
  | channelEndpointChanged (payload : Nat)
deriving DecidableEq, Repr

/-- Mirrors the `Mining` parser variants matched in
`Sv2ServerService::call`.  Payloads are opaque tokens: the dispatcher
never inspects them, it only forwards them to the mining handler. -/
inductive MiningMessage where
  | openStandardMiningChannel (payload : Nat)
  | openExtendedMiningChannel (payload : Nat)
  | updateChannel (payload : Nat)
  | submitSharesStandard (payload : Nat)
  | submitSharesExtended (payload : Nat)
  | setCustomMiningJob (payload : Nat)
  | closeChannel (payload : Nat)
  | newExtendedMiningJob (payload : Nat)
  | newMiningJob (payload : Nat)
  | setNewPrevHash (payload : Nat)
  | openExtendedMiningChannelSuccess (payload : Nat)
  | openMiningChannelError (payload : Nat)
  | openStandardMiningChannelSuccess (payload : Nat)
  | setCustomMiningJobError (payload : Nat)
  | setCustomMiningJobSuccess (payload : Nat)
  | setExtranoncePrefix (payload : Nat)
  | setGroupChannel (payload : Nat)
  | setTarget (payload : Nat)
  | submitSharesError (payload : Nat)
  | submitSharesSuccess (payload : Nat)
  | updateChannelError (payload : Nat)
deriving DecidableEq, Repr

/-- Returns `true` for the seven request-shaped mining variants that the
server dispatches to a matching handler method; all other variants are
rejected with `UnsupportedMessage`. -/
def MiningMessage.isRequestShaped : MiningMessage → Bool
  | .openStandardMiningChannel _ => true
  | .openExtendedMiningChannel _ => true
  | .updateChannel _ => true
  | .submitSharesStandard _ => true
  | .submitSharesExtended _ => true
  | .setCustomMiningJob _ => true
  | .closeChannel _ => true
  | _ => false

/-- Mirrors `AnyMessage`: the top-level Sv2 message envelope. -/
inductive AnyMessage where
  | common (m : CommonMessage)
  | mining (m : MiningMessage)
  | jobDeclaration (payload : Nat)
  | templateDistribution (payload : Nat)
deriving DecidableEq, Repr

/-- Mirrors `MiningServerTrigger` from
`src/server/service/subprotocols/mining/trigger.rs` as used in `call`:
`Start`, `NewTemplate`, `SetNewPrevHash` (payloads opaque). -/
inductive MiningServerTrigger where
  | start
  | newTemplate (payload : Nat)
  | setNewPrevHash (payload : Nat)
deriving DecidableEq, Repr

/-- Modelled from the spec: the request envelope `RequestToSv2Server`
(file `src/server/service/request.rs` is not available; §3 of the spec
lists the server-side variants and `mod.rs` matches on exactly these).
`Sv2MessageToServer` and `Sv2MessagesToClient` are inlined as
constructor arguments. -/
inductive RequestToSv2Server where
  | incomingMessage (message : AnyMessage) (client_id : Option Nat)
  | miningTrigger (t : MiningServerTrigger)
  | sendMessagesToClient (client_id : Nat) (messages : List AnyMessage)
  | sendMessagesToClients (batches : List (Nat × List AnyMessage))
  | sendRequestToSiblingClientService (r : RequestToSv2Server)
  | multipleRequests (rs : List RequestToSv2Server)

/-- Modelled from the spec: the response envelope `ResponseFromSv2Server`
(file `src/server/service/response.rs` is not available; §3 lists the
shared shape and `mod.rs` constructs only `TriggerNewRequest` and `Ok`). -/
inductive ResponseFromSv2Server where
  | ok
  | connectionEstablished
  | triggerNewRequest (r : RequestToSv2Server)

/-- Modelled from the spec: the error enum `RequestToSv2ServerError`
(file `src/server/service/request.rs` is not available; §7 lists the
taxonomy and `mod.rs` constructs exactly these variants). -/
inductive RequestToSv2ServerError where
  | badRouting
  | unsupportedMessage
  | unsupportedProtocol (protocol : Protocol)
  | idMustBeSome
  | idNotFound
  | failedToSendResponseToClient
  | noSiblingClientService
  | failedToSendRequestToSiblingClientService
deriving DecidableEq, Repr

/-- Outcome of one dispatcher invocation.  `success`/`failure` mirror the
Rust `Result<ResponseFromSv2Server, RequestToSv2ServerError>`;
`modelPanic` marks a Rust panic (`expect`, `todo`); `fuelOut` is an
artifact of the bounded embedding of the unbounded `TriggerNewRequest`
recursion and is never reached in any theorem below. -/
inductive CallResult where
  | success (resp : ResponseFromSv2Server)
  | failure (e : RequestToSv2ServerError)
  | modelPanic (msg : String)
  | fuelOut

/-- Mirrors `Sv2ServerServiceError` from `src/server/service/error.rs`. -/
inductive Sv2ServerServiceError where
  | nullHandlerForSupportedProtocol (protocol : Protocol)
  | nonNullHandlerForUnsupportedProtocol (protocol : Protocol)
  | missingConfigForSupportedProtocol (protocol : Protocol)
  | tcpServerError
  | other (msg : String)
deriving DecidableEq, Repr

/-- Mirrors `Sv2ServerServiceMiningConfig { supported_flags: u32 }`. -/
structure Sv2ServerServiceMiningConfig where
  supported_flags : Nat
deriving DecidableEq, Repr

/-- Mirrors `Sv2ServerServiceJobDeclarationConfig { supported_flags: u32 }`. -/
structure Sv2ServerServiceJobDeclarationConfig where
  supported_flags : Nat
deriving DecidableEq, Repr

/-- Mirrors `Sv2ServerServiceTemplateDistributionConfig { supported_flags: u32 }`. -/
structure Sv2ServerServiceTemplateDistributionConfig where
  supported_flags : Nat
deriving DecidableEq, Repr

/-- Mirrors `Sv2ServerServiceConfig`: supported version range,
inactivity limit and per-subprotocol optional configs.  The TCP listener
parameters (address, keypair, certificate validity) are irrelevant to
the dispatcher and omitted. -/
structure Sv2ServerServiceConfig where
  min_supported_version : Nat
  max_supported_version : Nat
  inactivity_limit : Nat
  mining_config : Option Sv2ServerServiceMiningConfig
  job_declaration_config : Option Sv2ServerServiceJobDeclarationConfig
  template_distribution_config : Option Sv2ServerServiceTemplateDistributionConfig
deriving DecidableEq, Repr

/-- Modelled from the spec: `Sv2ServerServiceConfig::supported_protocols`
(file `src/server/service/config.rs` is not available).  Per §6 the
config carries one optional per-protocol config, and a protocol is in
the supported set exactly when its config is present (the flag-check
lookups in `handle_setup_connection` rely on membership implying a
present config). -/
def Sv2ServerServiceConfig.supported_protocols (c : Sv2ServerServiceConfig) :
    List Protocol :=
  (if c.mining_config.isSome then [Protocol.miningProtocol] else []) ++
  (if c.job_declaration_config.isSome then [Protocol.jobDeclarationProtocol] else []) ++
  (if c.template_distribution_config.isSome then [Protocol.templateDistributionProtocol] else [])

/-- The per-protocol `supported_flags` lookup of the flag-check step of
`handle_setup_connection`; `none` corresponds to the `expect` panics
("Mining config must be Some", etc.). -/
def supportedFlagsFor (c : Sv2ServerServiceConfig) : Protocol → Option Nat
  | .miningProtocol => c.mining_config.map (·.supported_flags)
  | .jobDeclarationProtocol => c.job_declaration_config.map (·.supported_flags)
  | .templateDistributionProtocol => c.template_distribution_config.map (·.supported_flags)

/-- Bitwise complement on `u32`: `!x` in Rust, embedded as xor against
the 32-bit all-ones mask (the argument is first reduced mod `2^32`). -/
def u32Not (x : Nat) : Nat := Nat.xor (x % 2 ^ 32) (2 ^ 32 - 1)

/-- Mirrors `Sv2ConnectionClient` (fields copied from the accepted
`SetupConnection` in step 4 of `handle_setup_connection`). -/
structure Sv2ConnectionClient where
  protocol : Protocol
  min_version : Nat
  max_version : Nat
  flags : Nat
  endpoint_host : String
  endpoint_port : Nat
  vendor : String
  hardware_version : String
  firmware : String
  device_id : String
deriving DecidableEq, Repr

/-- The connection details written by the success path of
`handle_setup_connection`, copied field by field from the request. -/
def connectionOfRequest (req : SetupConnection) : Sv2ConnectionClient where
  protocol := req.protocol
  min_version := req.min_version
  max_version := req.max_version
  flags := req.flags
  endpoint_host := req.endpoint_host
  endpoint_port := req.endpoint_port
  vendor := req.vendor
  hardware_version := req.hardware_version
  firmware := req.firmware
  device_id := req.device_id

/-- A client's framed duplex channel.  `delivered` is the ordered list of
messages successfully sent to the peer; `failScript` is an oracle for
transport failures: each send consumes one entry (`true` = that send
fails), and sends succeed once the script is exhausted. -/
structure ClientIo where
  delivered : List AnyMessage
  failScript : List Bool
deriving DecidableEq, Repr

/-- One entry of the client registry.  The last-message timestamp is not
embedded (no claim concerns it).  The connection slot and IO mirror
`Sv2ServerServiceClient`. -/
structure Sv2ServerServiceClient where
  connection : Option Sv2ConnectionClient
  io : ClientIo
deriving DecidableEq, Repr

/-- Modelled from the spec: `Sv2ServerServiceClient::new(io)` (file
`src/server/service/client.rs` is not available); per §3 the connection
details slot is initially absent. -/
def Sv2ServerServiceClient.new (io : ClientIo) : Sv2ServerServiceClient where
  connection := none
  io := io

/-- The in-process sibling channel: `sent` is the ordered list of
forwarded requests, `failScript` an oracle for send failures (as in
`ClientIo`). -/
structure SiblingIo where
  sent : List RequestToSv2Server
  failScript : List Bool

/-- The mutable state of `Sv2ServerService` threaded through the
dispatcher: the client registry (the `DashMap` embedded as an
association list keyed by client id), the optional sibling channel, and
a ghost log of mining-handler `add_client` invocations
(handler protocol, client id, flags). -/
structure ServerState where
  clients : List (Nat × Sv2ServerServiceClient)
  siblingIo : Option SiblingIo
  addClientCalls : List (Protocol × Nat × Nat)

/-- Registry lookup (`self.clients.get(&client_id)`). -/
def lookupClient : List (Nat × Sv2ServerServiceClient) → Nat →
    Option Sv2ServerServiceClient
  | [], _ => none
  | (k, c) :: rest, id => if k = id then some c else lookupClient rest id

/-- Registry update of an existing entry (shared-`Arc` mutation of a
`DashMap` entry); a missing key leaves the registry unchanged (all call
sites are guarded by a successful lookup). -/
def updateClient : List (Nat × Sv2ServerServiceClient) → Nat →
    Sv2ServerServiceClient → List (Nat × Sv2ServerServiceClient)
  | [], _, _ => []
  | (k, c) :: rest, id, c' =>
      if k = id then (k, c') :: rest else (k, c) :: updateClient rest id c'

/-- One of the mining-handler entry points invoked by the dispatcher. -/
inductive MiningHandlerCall where
  | handleMessage (client_id : Nat) (m : MiningMessage)
  | start
  | onNewTemplate (payload : Nat)
  | onSetNewPrevHash (payload : Nat)
deriving DecidableEq, Repr

/-- The mining handler `M`, abstracted to what the dispatcher observes:
whether `M` is `NullSv2MiningServerHandler` (the `TypeId` test in
`has_null_handler`), the flags returned by
`setup_connection_success_flags`, and the response each handler entry
point returns.  Handler-internal state is out of scope (§1 of the
spec); `add_client` invocations are recorded in the ghost log. -/
structure MiningHandlerModel where
  isNull : Bool
  setup_connection_success_flags : Nat
  respond : MiningHandlerCall → Except RequestToSv2ServerError ResponseFromSv2Server

/-- Mirrors `Sv2ServerService::has_null_handler`: only the mining
protocol has a handler slot; for the other protocols the function
returns `false` (`_ => false`, with a `todo` comment in the source). -/
def hasNullHandler (isNullMiningHandler : Bool) : Protocol → Bool
  | .miningProtocol => isNullMiningHandler
  | _ => false

/-- Mirrors `Sv2ServerService::validate_protocol_handlers`: only the
mining handler is checked against the supported set (job declaration
and template distribution checks are `todo` in the source). -/
def validate_protocol_handlers (isNullMiningHandler : Bool)
    (config : Sv2ServerServiceConfig) : Except Sv2ServerServiceError Unit :=
  let is_null_mining_handler := hasNullHandler isNullMiningHandler .miningProtocol
  if config.supported_protocols.contains Protocol.miningProtocol then
    if is_null_mining_handler then
      .error (.nullHandlerForSupportedProtocol .miningProtocol)
    else
      .ok ()
  else if !is_null_mining_handler then
    .error (.nonNullHandlerForUnsupportedProtocol .miningProtocol)
  else
    .ok ()

/-- Mirrors the internal constructor `Sv2ServerService::_new`: validate
the handlers, then build the service with an empty registry.  `new`
passes `none` for the sibling channel and `new_with_sibling_io` passes
the freshly built channel pair. -/
def newSv2ServerService (isNullMiningHandler : Bool)
    (config : Sv2ServerServiceConfig) (sibling : Option SiblingIo) :
    Except Sv2ServerServiceError ServerState :=
  match validate_protocol_handlers isNullMiningHandler config with
  | .error e => .error e
  | .ok _ => .ok { clients := [], siblingIo := sibling, addClientCalls := [] }

/-- Embeds `Sv2ServerService::handle_setup_connection`: protocol check,
version check, version selection, flag check (with the mining-handler
`add_client` call on the flag-error path), connection-details write and
handler attach on the success path. -/
def handleSetupConnection (h : MiningHandlerModel)
    (config : Sv2ServerServiceConfig) (req : SetupConnection)
    (client_id : Nat) (st : ServerState) : ServerState × CallResult :=
  -- 1) Check subprotocol
  if !(config.supported_protocols.contains req.protocol) then
    (st, .success (.triggerNewRequest (.sendMessagesToClient client_id
      [.common (.setupConnectionError ⟨0, "unsupported-protocol"⟩)])))
  -- 2) Check version support
  else if req.max_version < config.min_supported_version ∨
      req.min_version > config.max_supported_version then
    (st, .success (.triggerNewRequest (.sendMessagesToClient client_id
      [.common (.setupConnectionError ⟨0, "protocol-version-mismatch"⟩)])))
  else
    -- Choose an actual version to use.
    let used_version := min req.max_version config.max_supported_version
    -- 3) Flags check
    match supportedFlagsFor config req.protocol with
    | none => (st, .modelPanic "config must be Some")
    | some supported_flags =>
      let unsupported_flags := Nat.land req.flags (u32Not supported_flags)
      if unsupported_flags ≠ 0 then
        let newCalls := st.addClientCalls ++ [(Protocol.miningProtocol, client_id, req.flags)]
        let st' :=
          if h.isNull then st
          else { st with addClientCalls := newCalls }
        (st', .success (.triggerNewRequest (.sendMessagesToClient client_id
          [.common (.setupConnectionError
            ⟨unsupported_flags, "unsupported-feature-flags"⟩)])))
      else
        -- 4) Create connection details and update client
        match lookupClient st.clients client_id with
        | none => (st, .failure .idNotFound)
        | some cl =>
          let newClients :=
            updateClient st.clients client_id
              ({ cl with connection := some (connectionOfRequest req) })
          let st' := { st with clients := newClients }
          let attachCalls :=
            st'.addClientCalls ++ [(Protocol.miningProtocol, client_id, req.flags)]
          let attach :=
            match req.protocol with
            | .miningProtocol =>
                ({ st' with addClientCalls := attachCalls },
                  h.setup_connection_success_flags)
            | .jobDeclarationProtocol => (st', 0)
            | .templateDistributionProtocol => (st', 0)
          -- 5) Return SetupConnectionSuccess
          (attach.1, .success (.triggerNewRequest (.sendMessagesToClient client_id
            [.common (.setupConnectionSuccess ⟨used_version, attach.2⟩)])))

/-- The send loop of the `SendMessagesToClient` arm: send each message in
order, stopping at the first failure; returns the updated channel and
whether every send succeeded. -/
def sendAll (io : ClientIo) : List AnyMessage → ClientIo × Bool
  | [] => (io, true)
  | m :: ms =>
    match io.failScript with
    | [] => sendAll { io with delivered := io.delivered ++ [m] } ms
    | b :: rest =>
      if b then ({ io with failScript := rest }, false)
      else sendAll { delivered := io.delivered ++ [m], failScript := rest } ms

/-- The per-batch loop of the `SendMessagesToClients` arm: for each
(client id, messages) entry look up the client and send its messages in
order; the first missing client or failed send aborts with
`FailedToSendResponseToClient`, leaving earlier sends in place. -/
def sendBatches (st : ServerState) :
    List (Nat × List AnyMessage) → ServerState × CallResult
  | [] => (st, .success .ok)
  | (client_id, msgs) :: rest =>
    match lookupClient st.clients client_id with
    | none => (st, .failure .failedToSendResponseToClient)
    | some cl =>
      let res := sendAll cl.io msgs
      let newClients := updateClient st.clients client_id ({ cl with io := res.1 })
      let st' := { st with clients := newClients }
      if res.2 then sendBatches st' rest
      else (st', .failure .failedToSendResponseToClient)

/-- The sibling-forward arm: send on the sibling channel if present,
consuming one entry of its failure script. -/
def siblingSend (st : ServerState) (r : RequestToSv2Server) :
    ServerState × CallResult :=
  match st.siblingIo with
  | none => (st, .failure .noSiblingClientService)
  | some sio =>
    match sio.failScript with
    | [] =>
        ({ st with siblingIo := some { sio with sent := sio.sent ++ [r] } },
          .success .ok)
    | b :: rest =>
      if b then
        ({ st with siblingIo := some { sio with failScript := rest } },
          .failure .failedToSendRequestToSiblingClientService)
      else
        ({ st with siblingIo := some { sent := sio.sent ++ [r], failScript := rest } },
          .success .ok)

/-- The `MultipleRequests` loop: dispatch each request in order through
the full dispatcher (passed in as `step`); the first non-success aborts,
otherwise the arm answers `Ok(ResponseFromSv2Server::Ok)`. -/
def callMulti
    (step : ServerState → RequestToSv2Server → ServerState × CallResult) :
    ServerState → List RequestToSv2Server → ServerState × CallResult
  | st, [] => (st, .success .ok)
  | st, r :: rest =>
    match step st r with
    | (st', .success _) => callMulti step st' rest
    | other => other

/-- The big `match req_clone` of `call`, arm by arm.  `recur` is the
full dispatcher used by the `MultipleRequests` loop (in the source this
is simply `this.call`). -/
def callBody (h : MiningHandlerModel) (config : Sv2ServerServiceConfig)
    (recur : ServerState → RequestToSv2Server → ServerState × CallResult)
    (st : ServerState) (req : RequestToSv2Server) :
    ServerState × CallResult :=
  match req with
  | .incomingMessage message client_id =>
    -- (the last-message timestamp update is not embedded)
    match message with
    | .common c =>
      match c with
      | .setupConnection sc =>
        match client_id with
        | some id => handleSetupConnection h config sc id st
        | none => (st, .failure .idMustBeSome)
      | _ => (st, .failure .unsupportedMessage)
    | .mining m =>
      if hasNullHandler h.isNull .miningProtocol then
        (st, .failure (.unsupportedProtocol .miningProtocol))
      else if m.isRequestShaped then
        match client_id with
        | none => (st, .modelPanic "client_id must be Some")
        | some id =>
          match h.respond (.handleMessage id m) with
          | .ok resp => (st, .success resp)
          | .error e => (st, .failure e)
      else
        (st, .failure .unsupportedMessage)
    | .jobDeclaration _ => (st, .modelPanic "todo")
    | .templateDistribution _ => (st, .modelPanic "todo")
  | .miningTrigger t =>
    let hcall :=
      match t with
      | .start => MiningHandlerCall.start
      | .newTemplate p => MiningHandlerCall.onNewTemplate p
      | .setNewPrevHash p => MiningHandlerCall.onSetNewPrevHash p
    match h.respond hcall with
    | .ok resp => (st, .success resp)
    | .error e => (st, .failure e)
  | .sendRequestToSiblingClientService r => siblingSend st r
  | .sendMessagesToClient client_id messages =>
    match lookupClient st.clients client_id with
    | none => (st, .failure .failedToSendResponseToClient)
    | some cl =>
      let res := sendAll cl.io messages
      let newClients := updateClient st.clients client_id ({ cl with io := res.1 })
      let st' := { st with clients := newClients }
      (st', if res.2 then .success .ok else .failure .failedToSendResponseToClient)
  | .sendMessagesToClients batches => sendBatches st batches
  | .multipleRequests rs => callMulti recur st rs

/-- Embeds `Sv2ServerService::call` (the `tower::Service`
implementation): run the body for the request, then, if the body
produced `Ok(TriggerNewRequest(r))`, immediately re-enter on `r`.  The
source recursion is unbounded and relies on the handler contract to
terminate; the embedding bounds it with fuel, consuming one unit per
dispatcher invocation (both on re-entry and inside the
`MultipleRequests` loop); `fuelOut` never occurs with enough fuel. -/
def call (h : MiningHandlerModel) (config : Sv2ServerServiceConfig) :
    Nat → ServerState → RequestToSv2Server → ServerState × CallResult
  | 0, st, _ => (st, .fuelOut)
  | fuel + 1, st, req =>
    match callBody h config (call h config fuel) st req with
    | (st', .success (.triggerNewRequest r')) => call h config fuel st' r'
    | other => other

/-- Returns `true` exactly when a call outcome is `Ok(TriggerNewRequest(_))`,
the one shape the dispatcher re-enters on. -/
def CallResult.isTriggerSuccess : CallResult → Bool
  | .success (.triggerNewRequest _) => true
  | _ => false

/-- Returns `true` exactly when a call outcome is the embedding's marker
for a Rust panic (`expect` failure or `todo`). -/
def CallResult.isPanicOutcome : CallResult → Bool
  | .modelPanic _ => true
  | _ => false

/-- Spec-side reference for the `MultipleRequests` law (§8 of the spec):
submitting the requests one by one through the full dispatcher, stopping
at the first non-success, with overall result `Ok` when every request
succeeds.  Written from the spec's words, to be compared with the
embedded `MultipleRequests` arm. -/
def sequentialDispatch (h : MiningHandlerModel) (config : Sv2ServerServiceConfig)
    (fuel : Nat) (st : ServerState) (rs : List RequestToSv2Server) :
    ServerState × CallResult :=
  match rs with
  | [] => (st, .success .ok)
  | r :: rest =>
    match call h config fuel st r with
    | (st', .success _) => sequentialDispatch h config fuel st' rest
    | other => other

/-- Spec-side rendering of §8 invariant 6, the claimed construction
failure condition: some protocol has exactly one of supported /
non-null handler, or is supported while its config is absent.  Written
from the spec's words, to be compared with `validate_protocol_handlers`. -/
def specConstructionFails (isNullMiningHandler : Bool)
    (config : Sv2ServerServiceConfig) : Bool :=
  [Protocol.miningProtocol, .jobDeclarationProtocol, .templateDistributionProtocol].any
    fun p =>
      (xor (config.supported_protocols.contains p)
        (!hasNullHandler isNullMiningHandler p)) ||
      (config.supported_protocols.contains p && (supportedFlagsFor config p).isNone)

/-- Fixture: the model of `NullSv2MiningServerHandler` (every service
test in the repository uses it). -/
def nullHandlerModel : MiningHandlerModel :=
  { isNull := true, setup_connection_success_flags := 0, respond := fun _ => .ok .ok }

/-- Fixture: a non-null mining handler model. -/
def liveHandlerModel : MiningHandlerModel :=
  { isNull := false, setup_connection_success_flags := 5, respond := fun _ => .ok .ok }

/-- Fixture: the configuration of the repository's `sv2_server_ok` test —
versions pinned to 2, only Job Declaration supported, `supported_flags = 0`. -/
def jdOnlyConfig : Sv2ServerServiceConfig :=
  { min_supported_version := 2, max_supported_version := 2, inactivity_limit := 1,
    mining_config := none,
    job_declaration_config := some { supported_flags := 0 },
    template_distribution_config := none }

/-- Fixture: a configuration supporting both Mining and Job Declaration. -/
def miningJdConfig : Sv2ServerServiceConfig :=
  { min_supported_version := 2, max_supported_version := 2, inactivity_limit := 1,
    mining_config := some { supported_flags := 0 },
    job_declaration_config := some { supported_flags := 0 },
    template_distribution_config := none }

/-- Fixture: a registry holding the single freshly accepted client 1. -/
def oneClientState : ServerState :=
  { clients := [(1, Sv2ServerServiceClient.new { delivered := [], failScript := [] })],
    siblingIo := none, addClientCalls := [] }

/-- Fixture: an empty registry. -/
def emptyState : ServerState :=
  { clients := [], siblingIo := none, addClientCalls := [] }

/-- Fixture: the `SetupConnection` of the repository's tests (all strings
empty, versions 2), for the Job Declaration protocol with the given flags. -/
def jdSetupRequest (flags : Nat) : SetupConnection :=
  { protocol := .jobDeclarationProtocol, min_version := 2, max_version := 2,
    flags := flags, endpoint_host := "", endpoint_port := 0, vendor := "",
    hardware_version := "", firmware := "", device_id := "" }

/-- Fixture: a second valid Job Declaration `SetupConnection`, differing
from `jdSetupRequest 0` only in its device id. -/
def jdSetupRequestAlt : SetupConnection :=
  { jdSetupRequest 0 with device_id := "b" }

/-- Fixture: a Template Distribution `SetupConnection` (unsupported under
`jdOnlyConfig`, as in the repository's `sv2_server_service_bad_protocol`
test). -/
def tdSetupRequest : SetupConnection :=
  { jdSetupRequest 0 with protocol := .templateDistributionProtocol }

/-- Membership in the supported set coincides with presence of the
per-protocol config (this is what makes the flag-check lookups total). -/
theorem supported_contains_iff (config : Sv2ServerServiceConfig) (p : Protocol) :
    config.supported_protocols.contains p = (supportedFlagsFor config p).isSome := by
  rcases config with ⟨mn, mx, il, mc, jc, tc⟩
  cases mc <;> cases jc <;> cases tc <;> cases p <;> rfl

/-- Membership form of `supported_contains_iff`. -/
theorem supported_mem_iff (config : Sv2ServerServiceConfig) (p : Protocol) :
    p ∈ config.supported_protocols ↔ (supportedFlagsFor config p).isSome := by
  rcases config with ⟨mn, mx, il, mc, jc, tc⟩
  cases mc <;> cases jc <;> cases tc <;> cases p <;> simp [Sv2ServerServiceConfig.supported_protocols, supportedFlagsFor]

/-- C7: for a decoded SetupConnection whose protocol is outside the
configured supported set, `handle_setup_connection` answers with exactly
one `SetupConnectionError { flags: 0, error_code: "unsupported-protocol" }`
wrapped as `TriggerNewRequest(SendMessagesToClient)` for that client, and
leaves the state untouched: no version check, flag check,
connection-detail write or handler attach happens. -/
theorem c7_unsupported_protocol_rejected (h : MiningHandlerModel)
    (config : Sv2ServerServiceConfig) (req : SetupConnection) (client_id : Nat)
    (st : ServerState)
    (hp : config.supported_protocols.contains req.protocol = false) :
    handleSetupConnection h config req client_id st =
      (st, .success (.triggerNewRequest (.sendMessagesToClient client_id
        [.common (.setupConnectionError
          { flags := 0, error_code := "unsupported-protocol" })]))) := by
  unfold handleSetupConnection
  rw [hp]
  rfl

/-- Witness for C7 at the repository's `sv2_server_service_bad_protocol`
scenario: Template Distribution requested against a Job-Declaration-only
configuration. -/
theorem c7_witness :
    jdOnlyConfig.supported_protocols.contains tdSetupRequest.protocol = false ∧
    handleSetupConnection nullHandlerModel jdOnlyConfig tdSetupRequest 1 oneClientState =
      (oneClientState, .success (.triggerNewRequest (.sendMessagesToClient 1
        [.common (.setupConnectionError
          { flags := 0, error_code := "unsupported-protocol" })]))) :=
  ⟨by decide, c7_unsupported_protocol_rejected _ _ _ _ _ (by decide)⟩

/-- C9: the per-protocol `supported_flags` lookups of the flag-check step
(the `expect` unwraps of the per-protocol config) can never panic: every
request that reaches the flag check already passed the protocol check,
and membership in the supported set implies the config is present. -/
theorem c9_flag_lookup_never_panics (h : MiningHandlerModel)
    (config : Sv2ServerServiceConfig) (req : SetupConnection) (client_id : Nat)
    (st : ServerState) :
    ((handleSetupConnection h config req client_id st).2).isPanicOutcome
      = false := by
  unfold handleSetupConnection
  split
  · rfl
  · split
    · rfl
    · split
      · exfalso
        simp_all [supported_mem_iff]
      · repeat' split
        all_goals simp [apply_ite, ite_eq_iff, CallResult.isPanicOutcome]

/-- Every `SetupConnectionSuccess` the negotiator emits — on any path,
for any configuration — carries
`used_version = min(req.max_version, config.max_supported_version)`. -/
theorem hsc_success_version (h : MiningHandlerModel)
    (config : Sv2ServerServiceConfig) (req : SetupConnection) (client_id : Nat)
    (st : ServerState) (cid : Nat) (msgs : List AnyMessage)
    (s : SetupConnectionSuccess) :
    (handleSetupConnection h config req client_id st).2 =
        .success (.triggerNewRequest (.sendMessagesToClient cid msgs)) →
    AnyMessage.common (.setupConnectionSuccess s) ∈ msgs →
    s.used_version = min req.max_version config.max_supported_version := by
  intro h2 hmem
  unfold handleSetupConnection at h2
  repeat' (split at h2)
  all_goals try simp only [apply_ite] at h2
  repeat' (split at h2)
  all_goals simp at h2
  all_goals
    (rw [← h2.2] at hmem
     simp at hmem
     try rw [hmem])

/-- Path characterization: the unsupported-protocol path of the
negotiator. -/
theorem hsc_protocol_error (h : MiningHandlerModel)
    (config : Sv2ServerServiceConfig) (req : SetupConnection) (client_id : Nat)
    (st : ServerState)
    (hp : config.supported_protocols.contains req.protocol = false) :
    handleSetupConnection h config req client_id st =
      (st, .success (.triggerNewRequest (.sendMessagesToClient client_id
        [.common (.setupConnectionError
          { flags := 0, error_code := "unsupported-protocol" })]))) := by
  unfold handleSetupConnection
  rw [hp]
  rfl

/-- Path characterization: the version-error path of the negotiator. -/
theorem hsc_version_error (h : MiningHandlerModel)
    (config : Sv2ServerServiceConfig) (req : SetupConnection) (client_id : Nat)
    (st : ServerState)
    (hp : config.supported_protocols.contains req.protocol = true)
    (hv : req.max_version < config.min_supported_version ∨
        req.min_version > config.max_supported_version) :
    handleSetupConnection h config req client_id st =
      (st, .success (.triggerNewRequest (.sendMessagesToClient client_id
        [.common (.setupConnectionError
          { flags := 0, error_code := "protocol-version-mismatch" })]))) := by
  unfold handleSetupConnection
  rw [hp]
  rw [if_neg (by simp)]
  rw [if_pos hv]

/-- Path characterization: the flag-error path of the negotiator,
including the mining-handler `add_client` call guarded only by the
mining handler's null check. -/
theorem hsc_flag_error (h : MiningHandlerModel)
    (config : Sv2ServerServiceConfig) (req : SetupConnection) (client_id : Nat)
    (st : ServerState) (sf : Nat)
    (hp : config.supported_protocols.contains req.protocol = true)
    (hv : ¬(req.max_version < config.min_supported_version ∨
        req.min_version > config.max_supported_version))
    (hsf : supportedFlagsFor config req.protocol = some sf)
    (hu : Nat.land req.flags (u32Not sf) ≠ 0) :
    handleSetupConnection h config req client_id st =
      ({ st with addClientCalls := st.addClientCalls ++
          (if h.isNull then [] else [(Protocol.miningProtocol, client_id, req.flags)]) },
        .success (.triggerNewRequest (.sendMessagesToClient client_id
          [.common (.setupConnectionError
            { flags := Nat.land req.flags (u32Not sf),
              error_code := "unsupported-feature-flags" })]))) := by
  unfold handleSetupConnection
  rw [hp]
  rw [if_neg (by simp)]
  rw [if_neg hv]
  rw [hsf]
  dsimp only
  rw [if_pos hu]
  cases hn : h.isNull <;> simp [hn]

/-- Path characterization: the vanished-record path of the negotiator
(all checks passed, but the client id is gone from the registry). -/
theorem hsc_id_not_found (h : MiningHandlerModel)
    (config : Sv2ServerServiceConfig) (req : SetupConnection) (client_id : Nat)
    (st : ServerState) (sf : Nat)
    (hp : config.supported_protocols.contains req.protocol = true)
    (hv : ¬(req.max_version < config.min_supported_version ∨
        req.min_version > config.max_supported_version))
    (hsf : supportedFlagsFor config req.protocol = some sf)
    (hu : Nat.land req.flags (u32Not sf) = 0)
    (hcl : lookupClient st.clients client_id = none) :
    handleSetupConnection h config req client_id st =
      (st, .failure .idNotFound) := by
  unfold handleSetupConnection
  rw [hp]
  rw [if_neg (by simp)]
  rw [if_neg hv]
  rw [hsf]
  dsimp only
  rw [if_neg (fun hc => hc hu)]
  rw [hcl]

/-- Path characterization: the success path of the negotiator — all
checks passed and the record is present: the connection details are
written, `add_client` runs exactly for the mining protocol, and the
response carries the negotiated version and the handler's success
flags. -/
theorem hsc_success (h : MiningHandlerModel)
    (config : Sv2ServerServiceConfig) (req : SetupConnection) (client_id : Nat)
    (st : ServerState) (sf : Nat) (cl : Sv2ServerServiceClient)
    (hp : config.supported_protocols.contains req.protocol = true)
    (hv : ¬(req.max_version < config.min_supported_version ∨
        req.min_version > config.max_supported_version))
    (hsf : supportedFlagsFor config req.protocol = some sf)
    (hu : Nat.land req.flags (u32Not sf) = 0)
    (hcl : lookupClient st.clients client_id = some cl) :
    handleSetupConnection h config req client_id st =
      ({ clients := updateClient st.clients client_id
            ({ cl with connection := some (connectionOfRequest req) }),
         siblingIo := st.siblingIo,
         addClientCalls := st.addClientCalls ++
           (if req.protocol = .miningProtocol
             then [(Protocol.miningProtocol, client_id, req.flags)] else []) },
        .success (.triggerNewRequest (.sendMessagesToClient client_id
          [.common (.setupConnectionSuccess
            { used_version := min req.max_version config.max_supported_version,
              flags := if req.protocol = .miningProtocol
                then h.setup_connection_success_flags else 0 })]))) := by
  unfold handleSetupConnection
  rw [hp]
  rw [if_neg (by simp)]
  rw [if_neg hv]
  rw [hsf]
  dsimp only
  rw [if_neg (fun hc => hc hu)]
  rw [hcl]
  cases hpr : req.protocol <;> simp [hpr]

/-- C2: for a supported protocol, a request failing the version window
(`req.max_version < min_supported` or `req.min_version > max_supported`)
is answered with `SetupConnectionError { flags: 0, error_code:
"protocol-version-mismatch" }` and nothing else happens; and any
`SetupConnectionSuccess` the negotiator ever emits carries
`used_version = min(req.max_version, config.max_supported_version)`. -/
theorem c2_version_check (h : MiningHandlerModel)
    (config : Sv2ServerServiceConfig) (req : SetupConnection) (client_id : Nat)
    (st : ServerState)
    (hp : config.supported_protocols.contains req.protocol = true) :
    ((req.max_version < config.min_supported_version ∨
        req.min_version > config.max_supported_version) →
      handleSetupConnection h config req client_id st =
        (st, .success (.triggerNewRequest (.sendMessagesToClient client_id
          [.common (.setupConnectionError
            { flags := 0, error_code := "protocol-version-mismatch" })])))) ∧
    (∀ cid msgs s,
      (handleSetupConnection h config req client_id st).2 =
          .success (.triggerNewRequest (.sendMessagesToClient cid msgs)) →
      AnyMessage.common (.setupConnectionSuccess s) ∈ msgs →
      s.used_version = min req.max_version config.max_supported_version) := by
  constructor
  · exact fun hv => hsc_version_error h config req client_id st hp hv
  · exact fun cid msgs s =>
      hsc_success_version h config req client_id st cid msgs s

/-- Witness for C2 at the repository's happy-path scenario (`min = max =
2` on both sides): the negotiated version is `min(2, 2) = 2`. -/
theorem c2_witness :
    jdOnlyConfig.supported_protocols.contains (jdSetupRequest 0).protocol = true ∧
    SetupConnectionSuccess.used_version { used_version := 2, flags := 0 } =
      min (jdSetupRequest 0).max_version jdOnlyConfig.max_supported_version :=
  ⟨by decide,
    (c2_version_check nullHandlerModel jdOnlyConfig (jdSetupRequest 0) 1
        oneClientState (by decide)).2 1
      [AnyMessage.common (.setupConnectionSuccess { used_version := 2, flags := 0 })]
      { used_version := 2, flags := 0 } rfl (by simp)⟩

/-- C1 fails as stated: on the unsupported-flags path the source calls
`self.mining_handler.add_client` whenever the mining handler is
non-null, even when the requested protocol is a different one.  Here a
Job Declaration `SetupConnection` with an unsupported flag, against a
server supporting Mining and Job Declaration with a non-null mining
handler, records an `add_client` on the mining handler — neither the
empty call list nor a call on the requested protocol's handler that the
claim predicts. -/
theorem c1_counterexample :
    (jdSetupRequest 1).protocol = .jobDeclarationProtocol ∧
    (handleSetupConnection liveHandlerModel miningJdConfig (jdSetupRequest 1) 1
        oneClientState).1.addClientCalls = [(.miningProtocol, 1, 1)] ∧
    ¬((handleSetupConnection liveHandlerModel miningJdConfig (jdSetupRequest 1) 1
          oneClientState).1.addClientCalls =
        [((jdSetupRequest 1).protocol, 1, (jdSetupRequest 1).flags)] ∨
      (handleSetupConnection liveHandlerModel miningJdConfig (jdSetupRequest 1) 1
          oneClientState).1.addClientCalls = []) ∧
    (handleSetupConnection liveHandlerModel miningJdConfig (jdSetupRequest 1) 1
        oneClientState).2 =
      .success (.triggerNewRequest (.sendMessagesToClient 1
        [.common (.setupConnectionError
          { flags := 1, error_code := "unsupported-feature-flags" })])) :=
  ⟨by decide, by decide, by decide, rfl⟩

/-- C1 as amended: when the protocol is supported, the version window
fits and `unsupported = req.flags & !supported_flags` is non-zero, the
negotiator answers `TriggerNewRequest(SendMessagesToClient)` with the
single `SetupConnectionError { flags: unsupported, error_code:
"unsupported-feature-flags" }`, and before returning calls the mining
handler's `add_client(client_id, req.flags)` whenever the mining
handler is non-null — regardless of the requested protocol; the client
registry is left untouched. -/
theorem c1_amended_flag_error (h : MiningHandlerModel)
    (config : Sv2ServerServiceConfig) (req : SetupConnection) (client_id : Nat)
    (st : ServerState) (sf : Nat)
    (hp : config.supported_protocols.contains req.protocol = true)
    (hv : ¬(req.max_version < config.min_supported_version ∨
        req.min_version > config.max_supported_version))
    (hsf : supportedFlagsFor config req.protocol = some sf)
    (hu : Nat.land req.flags (u32Not sf) ≠ 0) :
    handleSetupConnection h config req client_id st =
      ({ st with addClientCalls := st.addClientCalls ++
          (if h.isNull then [] else [(Protocol.miningProtocol, client_id, req.flags)]) },
        .success (.triggerNewRequest (.sendMessagesToClient client_id
          [.common (.setupConnectionError
            { flags := Nat.land req.flags (u32Not sf),
              error_code := "unsupported-feature-flags" })]))) :=
  hsc_flag_error h config req client_id st sf hp hv hsf hu

/-- Witness for C1 (amended) at the repository's
`sv2_server_service_unsupported_flags` scenario: flag `0x1` against
`supported_flags = 0` with the null mining handler — the error carries
`flags = 1` and no `add_client` happens. -/
theorem c1_witness :
    jdOnlyConfig.supported_protocols.contains (jdSetupRequest 1).protocol = true ∧
    supportedFlagsFor jdOnlyConfig (jdSetupRequest 1).protocol = some 0 ∧
    Nat.land (jdSetupRequest 1).flags (u32Not 0) ≠ 0 ∧
    handleSetupConnection nullHandlerModel jdOnlyConfig (jdSetupRequest 1) 1 oneClientState =
      ({ oneClientState with addClientCalls := oneClientState.addClientCalls ++
          (if nullHandlerModel.isNull then []
            else [(Protocol.miningProtocol, 1, (jdSetupRequest 1).flags)]) },
        .success (.triggerNewRequest (.sendMessagesToClient 1
          [.common (.setupConnectionError
            { flags := Nat.land (jdSetupRequest 1).flags (u32Not 0),
              error_code := "unsupported-feature-flags" })]))) :=
  ⟨by decide, by decide, by decide,
    c1_amended_flag_error nullHandlerModel jdOnlyConfig (jdSetupRequest 1) 1
      oneClientState 0 (by decide) (by decide) (by decide) (by decide)⟩

/-- C8 fails as stated: the success path of `handle_setup_connection`
overwrites the connection-details slot unconditionally, so a client
that completes `SetupConnection` twice has its slot written twice.
Starting from a fresh record (slot absent), two successful
negotiations with different device ids leave two different values in
the slot, one after the other. -/
theorem c8_counterexample :
    lookupClient oneClientState.clients 1 =
      some { connection := none, io := { delivered := [], failScript := [] } } ∧
    lookupClient (handleSetupConnection nullHandlerModel jdOnlyConfig
        (jdSetupRequest 0) 1 oneClientState).1.clients 1 =
      some { connection := some (connectionOfRequest (jdSetupRequest 0)),
             io := { delivered := [], failScript := [] } } ∧
    lookupClient (handleSetupConnection nullHandlerModel jdOnlyConfig jdSetupRequestAlt 1
        (handleSetupConnection nullHandlerModel jdOnlyConfig
          (jdSetupRequest 0) 1 oneClientState).1).1.clients 1 =
      some { connection := some (connectionOfRequest jdSetupRequestAlt),
             io := { delivered := [], failScript := [] } } ∧
    connectionOfRequest (jdSetupRequest 0) ≠ connectionOfRequest jdSetupRequestAlt :=
  ⟨by decide, by decide, by decide, by decide⟩

/-- C8 as amended: a freshly created client record has an absent
connection-details slot, and within the negotiator the registry is
either left completely unchanged (every error path and the
unsupported-flags path) or, only together with the
`SetupConnectionSuccess` response after all checks passed, updated at
exactly the requesting client by writing the negotiated details into
its slot.  At-most-once, however, is not enforced: a repeated
successful negotiation overwrites the slot (see the counterexample). -/
theorem c8_amended_single_writer :
    (∀ io, (Sv2ServerServiceClient.new io).connection = none) ∧
    (∀ (h : MiningHandlerModel) (config : Sv2ServerServiceConfig)
        (req : SetupConnection) (client_id : Nat) (st : ServerState),
      (handleSetupConnection h config req client_id st).1.clients = st.clients ∨
      (∃ cl flags,
        lookupClient st.clients client_id = some cl ∧
        (handleSetupConnection h config req client_id st).1.clients =
          updateClient st.clients client_id
            ({ cl with connection := some (connectionOfRequest req) }) ∧
        (handleSetupConnection h config req client_id st).2 =
          .success (.triggerNewRequest (.sendMessagesToClient client_id
            [.common (.setupConnectionSuccess
              { used_version := min req.max_version config.max_supported_version,
                flags := flags })])))) := by
  refine ⟨fun io => rfl, fun h config req client_id st => ?_⟩
  by_cases hp : config.supported_protocols.contains req.protocol = true
  case neg =>
    have hp' : config.supported_protocols.contains req.protocol = false := by
      revert hp
      cases config.supported_protocols.contains req.protocol <;> simp
    rw [hsc_protocol_error h config req client_id st hp']
    left; rfl
  case pos =>
    by_cases hv : (req.max_version < config.min_supported_version ∨
        req.min_version > config.max_supported_version)
    · rw [hsc_version_error h config req client_id st hp hv]
      left; rfl
    · obtain ⟨sf, hsf⟩ : ∃ sf, supportedFlagsFor config req.protocol = some sf := by
        have hiff := supported_contains_iff config req.protocol
        rw [hp] at hiff
        rcases hx : supportedFlagsFor config req.protocol with _ | sf
        · rw [hx] at hiff; simp at hiff
        · exact ⟨sf, rfl⟩
      by_cases hu : Nat.land req.flags (u32Not sf) = 0
      · rcases hcl : lookupClient st.clients client_id with _ | cl
        · rw [hsc_id_not_found h config req client_id st sf hp hv hsf hu hcl]
          left; rfl
        · rw [hsc_success h config req client_id st sf cl hp hv hsf hu hcl]
          right
          exact ⟨cl, _, rfl, rfl, rfl⟩
      · rw [hsc_flag_error h config req client_id st sf hp hv hsf hu]
        left; rfl

/-- C3 fails as stated: `validate_protocol_handlers` checks only the
Mining protocol (Job Declaration and Template Distribution validation
is left `todo`), so the claimed condition over all protocols does not
govern construction.  The repository's own `sv2_server_ok`
configuration — Job Declaration supported, null mining handler —
constructs successfully even though the spec's condition holds for it. -/
theorem c3_counterexample :
    newSv2ServerService true jdOnlyConfig none =
      .ok { clients := [], siblingIo := none, addClientCalls := [] } ∧
    specConstructionFails true jdOnlyConfig = true :=
  ⟨rfl, by decide⟩

/-- C3 as amended: construction (via `new` or `new_with_sibling_io`, both
of which defer to `_new`) fails iff exactly one of supported(Mining) and
non-null-mining-handler holds — with `NullHandlerForSupportedProtocol
{ MiningProtocol }` when Mining is supported with a null handler and
`NonNullHandlerForUnsupportedProtocol { MiningProtocol }` when Mining is
unsupported with a non-null handler; `MissingConfigForSupportedProtocol`
is never produced, the other protocols are not validated, and otherwise
construction succeeds. -/
theorem c3_amended_validation (isNullMiningHandler : Bool)
    (config : Sv2ServerServiceConfig) (sibling : Option SiblingIo) :
    (newSv2ServerService isNullMiningHandler config sibling =
        .error (.nullHandlerForSupportedProtocol .miningProtocol) ↔
      (Protocol.miningProtocol ∈ config.supported_protocols ∧
        isNullMiningHandler = true)) ∧
    (newSv2ServerService isNullMiningHandler config sibling =
        .error (.nonNullHandlerForUnsupportedProtocol .miningProtocol) ↔
      (Protocol.miningProtocol ∉ config.supported_protocols ∧
        isNullMiningHandler = false)) ∧
    (newSv2ServerService isNullMiningHandler config sibling =
        .ok { clients := [], siblingIo := sibling, addClientCalls := [] } ↔
      (Protocol.miningProtocol ∈ config.supported_protocols ↔
        isNullMiningHandler = false)) ∧
    (∀ p, newSv2ServerService isNullMiningHandler config sibling ≠
        .error (.missingConfigForSupportedProtocol p)) := by
  cases isNullMiningHandler <;>
    by_cases hm : Protocol.miningProtocol ∈ config.supported_protocols <;>
      simp [newSv2ServerService, validate_protocol_handlers, hasNullHandler, hm]

/-- When the body of a dispatch does not produce
`Ok(TriggerNewRequest(_))`, `call` returns the body's outcome as is. -/
theorem call_eq_callBody (h : MiningHandlerModel)
    (config : Sv2ServerServiceConfig) (fuel : Nat) (st : ServerState)
    (req : RequestToSv2Server)
    (hnt : ((callBody h config (call h config fuel) st req).2).isTriggerSuccess
      = false) :
    call h config (fuel + 1) st req =
      callBody h config (call h config fuel) st req := by
  rcases hb : callBody h config (call h config fuel) st req with ⟨st', res⟩
  rw [hb] at hnt
  unfold call
  rw [hb]
  cases res with
  | success resp =>
    cases resp with
    | triggerNewRequest r => simp [CallResult.isTriggerSuccess] at hnt
    | ok => rfl
    | connectionEstablished => rfl
  | failure e => rfl
  | modelPanic m => rfl
  | fuelOut => rfl

/-- C4: whenever handling a request yields `Ok(TriggerNewRequest(r'))`,
the dispatcher immediately re-enters itself on `r'` within the same
invocation and the outer `call` returns exactly the inner call's
outcome — in this sequential embedding the recursive request therefore
completes before the outer `call` returns. -/
theorem c4_trigger_reentry (h : MiningHandlerModel)
    (config : Sv2ServerServiceConfig) (fuel : Nat) (st : ServerState)
    (req : RequestToSv2Server) (st' : ServerState) (r' : RequestToSv2Server)
    (hb : callBody h config (call h config fuel) st req =
      (st', .success (.triggerNewRequest r'))) :
    call h config (fuel + 1) st req = call h config fuel st' r' := by
  conv_lhs => unfold call
  rw [hb]

/-- Witness for C4 at a concrete trigger-producing request: an
unsupported-protocol `SetupConnection` whose negotiation answer is a
`TriggerNewRequest(SendMessagesToClient)`. -/
theorem c4_witness :
    callBody nullHandlerModel jdOnlyConfig (call nullHandlerModel jdOnlyConfig 0)
        oneClientState
        (.incomingMessage (.common (.setupConnection tdSetupRequest)) (some 1)) =
      (oneClientState, .success (.triggerNewRequest (.sendMessagesToClient 1
        [.common (.setupConnectionError
          { flags := 0, error_code := "unsupported-protocol" })]))) ∧
    call nullHandlerModel jdOnlyConfig 1 oneClientState
        (.incomingMessage (.common (.setupConnection tdSetupRequest)) (some 1)) =
      call nullHandlerModel jdOnlyConfig 0 oneClientState
        (.sendMessagesToClient 1
          [.common (.setupConnectionError
            { flags := 0, error_code := "unsupported-protocol" })]) :=
  ⟨rfl,
    c4_trigger_reentry nullHandlerModel jdOnlyConfig 0 oneClientState
      (.incomingMessage (.common (.setupConnection tdSetupRequest)) (some 1))
      oneClientState
      (.sendMessagesToClient 1
        [.common (.setupConnectionError
          { flags := 0, error_code := "unsupported-protocol" })])
      rfl⟩

/-- The `MultipleRequests` loop never answers with a trigger: it either
propagates a non-success or finishes with `Ok`. -/
theorem callMulti_not_trigger
    (step : ServerState → RequestToSv2Server → ServerState × CallResult) :
    ∀ (rs : List RequestToSv2Server) (st : ServerState),
      ((callMulti step st rs).2).isTriggerSuccess = false := by
  intro rs
  induction rs with
  | nil =>
    intro st
    rfl
  | cons r rest ih =>
    intro st
    unfold callMulti
    rcases hr : step st r with ⟨st', res⟩
    cases res with
    | success resp => exact ih st'
    | failure e => rfl
    | modelPanic m => rfl
    | fuelOut => rfl

/-- The embedded `MultipleRequests` loop coincides with the spec-side
sequential dispatch. -/
theorem callMulti_eq_sequential (h : MiningHandlerModel)
    (config : Sv2ServerServiceConfig) (fuel : Nat) :
    ∀ (rs : List RequestToSv2Server) (st : ServerState),
      callMulti (call h config fuel) st rs =
        sequentialDispatch h config fuel st rs := by
  intro rs
  induction rs with
  | nil =>
    intro st
    rfl
  | cons r rest ih =>
    intro st
    unfold callMulti sequentialDispatch
    rcases hr : call h config fuel st r with ⟨st', res⟩
    cases res with
    | success resp => exact ih st'
    | failure e => rfl
    | modelPanic m => rfl
    | fuelOut => rfl

/-- C5: dispatching `MultipleRequests([r1..rn])` equals dispatching the
requests sequentially through `call` in list order: an empty list
answers `Ok`, the first request that does not succeed aborts the loop
with its outcome and no later request is attempted, and if every
request succeeds the overall result is `Ok`. -/
theorem c5_multiple_requests_law (h : MiningHandlerModel)
    (config : Sv2ServerServiceConfig) (fuel : Nat) (st : ServerState)
    (rs : List RequestToSv2Server) :
    call h config (fuel + 1) st (.multipleRequests rs) =
      sequentialDispatch h config fuel st rs ∧
    sequentialDispatch h config fuel st ([] : List RequestToSv2Server) =
      (st, .success .ok) ∧
    (∀ (st0 : ServerState) (r : RequestToSv2Server)
        (rest : List RequestToSv2Server),
      sequentialDispatch h config fuel st0 (r :: rest) =
        match call h config fuel st0 r with
        | (st', .success _) => sequentialDispatch h config fuel st' rest
        | other => other) := by
  refine ⟨?_, rfl, fun st0 r rest => rfl⟩
  have hb : callBody h config (call h config fuel) st (.multipleRequests rs) =
      callMulti (call h config fuel) st rs := rfl
  have hnt : ((callBody h config (call h config fuel) st
      (.multipleRequests rs)).2).isTriggerSuccess = false := by
    rw [hb]
    exact callMulti_not_trigger (call h config fuel) rs st
  rw [call_eq_callBody _ _ _ _ _ hnt, hb, callMulti_eq_sequential]

/-- When every send of the loop succeeds, the channel's delivered list
is extended by exactly the batch, in order. -/
theorem sendAll_ok_delivered (ms : List AnyMessage) :
    ∀ (io io' : ClientIo), sendAll io ms = (io', true) →
      io'.delivered = io.delivered ++ ms := by
  induction ms with
  | nil =>
    intro io io' hsa
    unfold sendAll at hsa
    injection hsa with h1 h2
    rw [← h1]
    simp
  | cons m rest ih =>
    intro io io' hsa
    unfold sendAll at hsa
    cases hfs : io.failScript with
    | nil =>
      rw [hfs] at hsa
      have hd := ih _ _ hsa
      simp at hd
      simp [hd]
    | cons b rest' =>
      rw [hfs] at hsa
      cases b with
      | false =>
        have hd := ih _ _ hsa
        simp at hd
        simp [hd]
      | true =>
        exact absurd (congrArg Prod.snd hsa) (by simp)

/-- When some send of the loop fails, the channel's delivered list is
extended by a proper prefix of the batch: the failing message and every
later one are not sent. -/
theorem sendAll_fail_take (ms : List AnyMessage) :
    ∀ (io io' : ClientIo), sendAll io ms = (io', false) →
      ∃ k, k < ms.length ∧ io'.delivered = io.delivered ++ ms.take k := by
  induction ms with
  | nil =>
    intro io io' hsa
    unfold sendAll at hsa
    exact absurd (congrArg Prod.snd hsa) (by simp)
  | cons m rest ih =>
    intro io io' hsa
    unfold sendAll at hsa
    cases hfs : io.failScript with
    | nil =>
      rw [hfs] at hsa
      obtain ⟨k, hk, hdel⟩ := ih _ _ hsa
      refine ⟨k + 1, Nat.succ_lt_succ hk, ?_⟩
      rw [hdel]
      simp
    | cons b rest' =>
      rw [hfs] at hsa
      cases b with
      | false =>
        obtain ⟨k, hk, hdel⟩ := ih _ _ hsa
        refine ⟨k + 1, Nat.succ_lt_succ hk, ?_⟩
        rw [hdel]
        simp
      | true =>
        injection hsa with h1 _
        exact ⟨0, by simp, by rw [← h1]; simp⟩

/-- Updating an existing registry entry is visible to a subsequent
lookup of the same id. -/
theorem lookupClient_updateClient_self
    (l : List (Nat × Sv2ServerServiceClient)) (id : Nat)
    (c c' : Sv2ServerServiceClient) (hl : lookupClient l id = some c) :
    lookupClient (updateClient l id c') id = some c' := by
  induction l with
  | nil => simp [lookupClient] at hl
  | cons kv rest ih =>
    obtain ⟨k, a⟩ := kv
    unfold lookupClient at hl
    unfold updateClient
    by_cases hk : k = id
    · rw [if_pos hk]
      unfold lookupClient
      rw [if_pos hk]
    · rw [if_neg hk]
      unfold lookupClient
      rw [if_neg hk]
      rw [if_neg hk] at hl
      exact ih hl

/-- C6: a `SendMessagesToClient` for a registered client sends the
messages on that client's channel in list order: if every send succeeds
the call answers `Ok` and the channel has delivered exactly the batch
in order; at the first failing send the call answers
`FailedToSendResponseToClient` and the remaining messages are not sent
(the delivered list grows only by a proper prefix of the batch). -/
theorem c6_send_messages_in_order (h : MiningHandlerModel)
    (config : Sv2ServerServiceConfig) (fuel : Nat) (st : ServerState)
    (client_id : Nat) (msgs : List AnyMessage) (cl : Sv2ServerServiceClient)
    (hc : lookupClient st.clients client_id = some cl) :
    (call h config (fuel + 1) st (.sendMessagesToClient client_id msgs) =
      ({ st with clients := updateClient st.clients client_id { cl with io := (sendAll cl.io msgs).1 } },
        if (sendAll cl.io msgs).2 then .success .ok
          else .failure .failedToSendResponseToClient)) ∧
    ((sendAll cl.io msgs).2 = true →
      (sendAll cl.io msgs).1.delivered = cl.io.delivered ++ msgs) ∧
    ((sendAll cl.io msgs).2 = false →
      ∃ k, k < msgs.length ∧
        (sendAll cl.io msgs).1.delivered = cl.io.delivered ++ msgs.take k) := by
  have hb : callBody h config (call h config fuel) st
        (.sendMessagesToClient client_id msgs) =
      ({ st with clients := updateClient st.clients client_id { cl with io := (sendAll cl.io msgs).1 } },
        if (sendAll cl.io msgs).2 then .success .ok
          else .failure .failedToSendResponseToClient) := by
    simp only [callBody]
    rw [hc]
  refine ⟨?_, ?_, ?_⟩
  · have hnt : ((callBody h config (call h config fuel) st
        (.sendMessagesToClient client_id msgs)).2).isTriggerSuccess = false := by
      rw [hb]
      cases hs : (sendAll cl.io msgs).2 <;> simp [hs, CallResult.isTriggerSuccess]
    rw [call_eq_callBody _ _ _ _ _ hnt, hb]
  · exact fun ht => sendAll_ok_delivered msgs cl.io (sendAll cl.io msgs).1
      (by rw [← ht])
  · exact fun hf => sendAll_fail_take msgs cl.io (sendAll cl.io msgs).1
      (by rw [← hf])

/-- Witness for C6: a one-message batch to registered client 1 on a
healthy channel is delivered in order. -/
theorem c6_witness :
    lookupClient oneClientState.clients 1 =
      some (Sv2ServerServiceClient.new { delivered := [], failScript := [] }) ∧
    (sendAll (Sv2ServerServiceClient.new { delivered := [], failScript := [] }).io
        [AnyMessage.common (.channelEndpointChanged 0)]).1.delivered =
      (Sv2ServerServiceClient.new
          { delivered := [], failScript := [] }).io.delivered ++
        [AnyMessage.common (.channelEndpointChanged 0)] :=
  ⟨rfl,
    (c6_send_messages_in_order nullHandlerModel jdOnlyConfig 0 oneClientState 1
      [AnyMessage.common (.channelEndpointChanged 0)]
      (Sv2ServerServiceClient.new { delivered := [], failScript := [] })
      rfl).2.1 rfl⟩

/-- C10: a `SendMessagesToClient` whose client id is absent from the
registry answers `FailedToSendResponseToClient` (not `IdNotFound`),
sends nothing on any channel, and leaves the whole state — registry
included — unchanged. -/
theorem c10_missing_client_failure (h : MiningHandlerModel)
    (config : Sv2ServerServiceConfig) (fuel : Nat) (st : ServerState)
    (client_id : Nat) (msgs : List AnyMessage)
    (hc : lookupClient st.clients client_id = none) :
    call h config (fuel + 1) st (.sendMessagesToClient client_id msgs) =
      (st, .failure .failedToSendResponseToClient) := by
  have hb : callBody h config (call h config fuel) st
        (.sendMessagesToClient client_id msgs) =
      (st, .failure .failedToSendResponseToClient) := by
    simp only [callBody]
    rw [hc]
  rw [call_eq_callBody _ _ _ _ _ (by rw [hb]; rfl), hb]

/-- Witness for C10: sending to the unknown client id 7 on an empty
registry. -/
theorem c10_witness :
    lookupClient emptyState.clients 7 = none ∧
    call nullHandlerModel jdOnlyConfig 1 emptyState
        (.sendMessagesToClient 7 [.common (.channelEndpointChanged 0)]) =
      (emptyState, .failure .failedToSendResponseToClient) :=
  ⟨rfl, c10_missing_client_failure nullHandlerModel jdOnlyConfig 0 emptyState 7
    [.common (.channelEndpointChanged 0)] rfl⟩

end TowerStratum

